import Mathlib

/-!
Verification of the `StartStopTimer` library of the ESP32-CAM-TimeSwitch
repository (src/lib/StartStopTimer/StartStopTimer.{hpp,cpp}).

The embedding conventions:

* `time_t` values (epoch seconds, intervals, the cycle period) are `Int`;
  `uint32_t` values (`intervalMultiplier`, `nbrOfCycles`) are `Nat`, with the
  C conversion from a signed value to `uint32_t` modelled as reduction modulo
  `2 ^ 32`.  C `/` on signed integers truncates toward zero (`Int.tdiv`).
* The cycle execution loop `_taskFunction` is modelled as a fuel-indexed
  interpreter over an explicit state (`LoopState`): the wall clock `now` is
  part of the state, `time(nullptr)` reads it, and a blocking delay advances
  it by exactly the requested duration (deterministic, jitter-free timing).
  The 10 ms wait-phase poll quantum is idealized at the quantum-to-zero
  limit: the wait loop exits exactly when `now` first reaches `tStart`
  (i.e. at `max now tStart`).  The code passes `intervalMultiplier *
  tInterval` to `vTaskDelay(pdMS_TO_TICKS(..))`; the model uses one uniform
  time unit for clock values and sleep durations, which is the convention
  all the specification formulas use (the default `intervalMultiplier =
  1000` is what converts the second-valued `tInterval` to milliseconds on
  the real hardware).
* The user callback is opaque; the state counts its invocations (`calls`).
* The FreeRTOS task handle is `Option Unit` (`some ()` = live handle,
  `none` = `nullptr`).
-/

/-- C truncating integer division: the semantics of `/` on signed operands. -/
def cdiv (a b : Int) : Int := Int.tdiv a b

/-- Conversion of a signed C value to `uint32_t`: reduction modulo `2 ^ 32`. -/
def toUInt32Val (x : Int) : Nat := (x % 4294967296).toNat

/-- The `TaskParams` record of StartStopTimer.hpp lines 6-9, with the FreeRTOS
task handle and the user callback modelled as `Option Unit`. -/
structure TaskParams where
  tStart : Int
  tStop : Int
  tInterval : Int
  intervalMultiplier : Nat
  tCyclePeriod : Int
  nbrOfCycles : Nat
  tskHandle : Option Unit
  callback : Option Unit
deriving DecidableEq

/-- StartStopTimer.hpp line 30: the freshly constructed scheduler's record
`TaskParams _tskParams = { 0, 0, 1, 1000, 86400, 1, nullptr, nullptr };`
(fields in declaration order: tStart, tStop, tInterval, intervalMultiplier,
tCyclePeriod, nbrOfCycles, tskHandle, callback). -/
def defaultTaskParams : TaskParams :=
  { tStart := 0, tStop := 0, tInterval := 1, intervalMultiplier := 1000
  , tCyclePeriod := 86400, nbrOfCycles := 1, tskHandle := none, callback := none }

/-- The fields of the C `struct tm` that `setCycleStartStop` reads or writes
(`tm_year`, `tm_mon`, `tm_mday`, `tm_hour`, `tm_min`). -/
structure Tm where
  year : Int
  mon : Int
  mday : Int
  hour : Int
  min : Int
deriving DecidableEq

/-- Whitespace for the purposes of `sscanf` (`%d` and a blank in the format
skip it). -/
def cIsSpace (c : Char) : Bool := c = ' ' || c = '\t' || c = '\n' || c = '\r'

/-- Drop leading whitespace. -/
def dropSpaces : List Char → List Char
  | [] => []
  | c :: cs => if cIsSpace c then dropSpaces cs else c :: cs

/-- Split off a maximal run of leading decimal digits. -/
def takeDigits : List Char → List Char × List Char
  | [] => ([], [])
  | c :: cs =>
    if c.isDigit then
      let p := takeDigits cs
      (c :: p.1, p.2)
    else ([], c :: cs)

/-- Value of a digit string. -/
def digitsToNat (ds : List Char) : Nat :=
  ds.foldl (fun a c => 10 * a + (c.toNat - 48)) 0

/-- Modelled from the spec: one `%d` directive of libc `sscanf` (an external
collaborator of the core): skip whitespace, then an optional minus sign and
at least one digit; on a matching failure nothing is consumed or stored. -/
def scanInt (l : List Char) : Option (Int × List Char) :=
  match dropSpaces l with
  | '-' :: rest =>
    match takeDigits rest with
    | ([], _) => none
    | (ds, r) => some (-(digitsToNat ds : Int), r)
  | l2 =>
    match takeDigits l2 with
    | ([], _) => none
    | (ds, r) => some ((digitsToNat ds : Int), r)

/-- Modelled from the spec: a non-whitespace literal character in an `sscanf`
format string must match the next input character exactly. -/
def litChar (c : Char) : List Char → Option (List Char)
  | [] => none
  | x :: xs => if x = c then some xs else none

/-- Result of `sscanf(s, "%d:%d", &tskHH, &tskMM)`: how many of the two
conversions matched, and the matched values (an unmatched variable is left
untouched by `sscanf`). -/
structure IntervalScan where
  matched : Nat
  hh : Option Int
  mm : Option Int
deriving DecidableEq

/-- Modelled from the spec: `sscanf(taskInterval, "%d:%d", &tskHH, &tskMM)`
(StartStopTimer.cpp line 50). -/
def scanIntervalHHMM (s : String) : IntervalScan :=
  match scanInt s.data with
  | none => ⟨0, none, none⟩
  | some (h, r1) =>
    match litChar ':' r1 with
    | none => ⟨1, some h, none⟩
    | some r2 =>
      match scanInt r2 with
      | none => ⟨1, some h, none⟩
      | some (m, _) => ⟨2, some h, some m⟩

/-- Result of `sscanf(s, "%d-%d-%d %d:%d", ...)`: matched count plus the five
values, each `none` when the conversion was not reached or failed. -/
structure DateScan where
  matched : Nat
  year : Option Int
  mon : Option Int
  mday : Option Int
  hour : Option Int
  min : Option Int
deriving DecidableEq

/-- Modelled from the spec: `sscanf(s, "%d-%d-%d %d:%d", &td.tm_year,
&td.tm_mon, &td.tm_mday, &td.tm_hour, &td.tm_min)` (StartStopTimer.cpp
lines 53 and 61). -/
def scanDateYMDHM (s : String) : DateScan :=
  match scanInt s.data with
  | none => ⟨0, none, none, none, none, none⟩
  | some (y, r1) =>
    match litChar '-' r1 with
    | none => ⟨1, some y, none, none, none, none⟩
    | some r2 =>
      match scanInt r2 with
      | none => ⟨1, some y, none, none, none, none⟩
      | some (mo, r3) =>
        match litChar '-' r3 with
        | none => ⟨2, some y, some mo, none, none, none⟩
        | some r4 =>
          match scanInt r4 with
          | none => ⟨2, some y, some mo, none, none, none⟩
          | some (d, r5) =>
            match scanInt (dropSpaces r5) with
            | none => ⟨3, some y, some mo, some d, none, none⟩
            | some (h, r7) =>
              match litChar ':' r7 with
              | none => ⟨4, some y, some mo, some d, some h, none⟩
              | some r8 =>
                match scanInt r8 with
                | none => ⟨4, some y, some mo, some d, some h, none⟩
                | some (mi, _) => ⟨5, some y, some mo, some d, some h, some mi⟩

/-- `sscanf` stores only the successfully converted fields; the rest of the
`tm` keeps whatever it previously contained. -/
def applyDateScan (ds : DateScan) (t : Tm) : Tm :=
  { year := ds.year.getD t.year
  , mon := ds.mon.getD t.mon
  , mday := ds.mday.getD t.mday
  , hour := ds.hour.getD t.hour
  , min := ds.min.getD t.min }

/-- Modelled from the spec: the day count of the calendar-to-epoch conversion
performed by libc `mktime` (an external collaborator): days from 1970-01-01
of the proleptic Gregorian civil date y-m-d, the standard days-from-civil
algorithm written with C truncating division. -/
def daysFromCivil (y m d : Int) : Int :=
  let yAdj := if m ≤ 2 then y - 1 else y
  let era := cdiv (if 0 ≤ yAdj then yAdj else yAdj - 399) 400
  let yoe := yAdj - era * 400
  let mp := if 2 < m then m - 3 else m + 9
  let doy := cdiv (153 * mp + 2) 5 + d - 1
  let doe := yoe * 365 + cdiv yoe 4 - cdiv yoe 100 + doy
  era * 146097 + doe - 719468

/-- Modelled from the spec: libc `mktime` on a `tm` holding local calendar
time (`tm_year` = years since 1900, `tm_mon` 0-based), returning epoch
seconds.  `utcOff` is the local-time UTC offset (seconds east) applied by the
timezone database for the daylight-saving regime in effect; both conversions
of one `setCycleStartStop` call use the same offset (the documented example
dates lie in the same regime).  Seconds (`tm_sec`) are zero throughout. -/
def mktimeModel (utcOff : Int) (t : Tm) : Int :=
  86400 * daysFromCivil (t.year + 1900) (t.mon + 1) t.mday
    + 3600 * t.hour + 60 * t.min - utcOff

/-- StartStopTimer.cpp lines 43-74, `StartStopTimer::setCycleStartStop`.
The C function returns `void`, ignores every `sscanf` result and reports no
error.  The locals `tskHH`, `tskMM` are declared uninitialized; `junkHH`,
`junkMM` are the stack garbage they hold when the corresponding conversion
does not match.  The `tm td = {0}` local is zero-initialized and is reused
(not reset) for the second date scan, exactly as in the source.  `utcOff` is
the timezone offset used by `mktimeModel`. -/
def setCycleStartStop (p : TaskParams)
    (startDateTime stopDateTime taskInterval : String)
    (utcOff junkHH junkMM : Int) : TaskParams :=
  let iscan := scanIntervalHHMM taskInterval
  let tskHH := iscan.hh.getD junkHH
  let tskMM := iscan.mm.getD junkMM
  let tIntervalNew := 60 * (60 * tskHH + tskMM)
  let td0 : Tm := ⟨0, 0, 0, 0, 0⟩
  let td1 := applyDateScan (scanDateYMDHM startDateTime) td0
  let td1b : Tm := { td1 with year := td1.year - 1900, mon := td1.mon - 1 }
  let tStartNew := mktimeModel utcOff td1b
  let td2 := applyDateScan (scanDateYMDHM stopDateTime) td1b
  let td2b : Tm := { td2 with year := td2.year - 1900, mon := td2.mon - 1 }
  let tStopNew := mktimeModel utcOff td2b
  let periodNew : Int := 86400
  let nbrNew := toUInt32Val (1 + cdiv (tStopNew - tStartNew) periodNew)
  { p with tInterval := tIntervalNew, tStart := tStartNew, tStop := tStopNew
         , tCyclePeriod := periodNew, nbrOfCycles := nbrNew }

/-- The mutable state of the cycle execution loop `_taskFunction`
(StartStopTimer.cpp lines 96-122): the `tStart`/`tStop` fields it mutates in
place, the wall clock `now` (read by `time(nullptr)`, advanced by blocking
delays), the number of callback invocations so far, and the number of
completed cycles (windows). -/
structure LoopState where
  tStart : Int
  tStop : Int
  now : Int
  calls : Nat
  cycles : Nat
deriving DecidableEq

/-- What is observable when `_taskFunction` returns: the final loop state and
the stored task handle (`p->tskHandle`), which the function's last line sets
to `nullptr`.  The C function returns `void`: there is no success/failure
payload beyond this. -/
structure TaskResult where
  state : LoopState
  tskHandle : Option Unit
deriving DecidableEq

/-- One iteration of the active phase (cpp lines 110-115): invoke the
callback, then `vTaskDelay` for `intervalMultiplier * tInterval`, advancing
the clock by exactly that amount. -/
def activeIter (stp : Int) (s : LoopState) : LoopState :=
  { s with calls := s.calls + 1, now := s.now + stp }

/-- The active phase `while (time(nullptr) < p->tStop) { callback();
vTaskDelay(..); }` (cpp lines 110-115), as a fuel-indexed loop: `none` means
the fuel ran out before the window closed. -/
def activePhase (stp : Int) : Nat → LoopState → Option LoopState
  | 0, s => if s.now < s.tStop then none else some s
  | fuel + 1, s =>
    if s.now < s.tStop then activePhase stp fuel (activeIter stp s) else some s

/-- The wait phase (cpp lines 106-107): `while (p->tStart > time(nullptr))
vTaskDelay(pdMS_TO_TICKS(10)); p->tStart = time(nullptr);` idealized at the
poll-quantum-to-zero limit: the loop exits exactly when the clock first
reaches `tStart` (immediately, if it is already past), and `tStart` is
re-anchored to that wake time. -/
def waitPhase (s : LoopState) : LoopState :=
  { s with now := max s.now s.tStart, tStart := max s.now s.tStart }

/-- One iteration of the cycle loop body (cpp lines 104-117): wait phase,
active phase, then the window advance `tStart += tCyclePeriod; tStop +=
tCyclePeriod;` which also counts the completed cycle. -/
def runCycle (stp per : Int) (fuel : Nat) (s : LoopState) : Option LoopState :=
  (activePhase stp fuel (waitPhase s)).map fun s2 =>
    { s2 with tStart := s2.tStart + per, tStop := s2.tStop + per
            , cycles := s2.cycles + 1 }

/-- The `for (uint32_t n = 0; n < p->nbrOfCycles; n++)` loop (cpp lines
102-118), running `n` cycles. -/
def runCycles (stp per : Int) (fuel : Nat) : Nat → LoopState → Option LoopState
  | 0, s => some s
  | n + 1, s => (runCycle stp per fuel s).bind (runCycles stp per fuel n)

/-- The loop states observed at entry to each of the `n` cycles' wait phases
(the points at which the spec measures the window width `tStop - tStart`). -/
def entryStates (stp per : Int) (fuel : Nat) : Nat → LoopState → Option (List LoopState)
  | 0, _ => some []
  | n + 1, s =>
    (runCycle stp per fuel s).bind fun s2 =>
      (entryStates stp per fuel n s2).map (s :: ·)

/-- The state at entry to `_taskFunction`, with the clock at `now0`. -/
def initState (p : TaskParams) (now0 : Int) : LoopState :=
  { tStart := p.tStart, tStop := p.tStop, now := now0, calls := 0, cycles := 0 }

/-- `StartStopTimer::_taskFunction` (cpp lines 96-122): run `nbrOfCycles`
cycles, then `vTaskDelete(p->tskHandle); p->tskHandle = nullptr;`.  `none`
means the given fuel did not cover the execution (the code loops forever,
e.g. a zero sleep step with the window still open). -/
def taskFunction (p : TaskParams) (now0 : Int) (fuel : Nat) : Option TaskResult :=
  (runCycles ((p.intervalMultiplier : Int) * p.tInterval) p.tCyclePeriod fuel
      p.nbrOfCycles (initState p now0)).map
    fun s => { state := s, tskHandle := none }

/-- Number of active-phase iterations the loop performs over a window of
width `gap` with sleep step `stp`: the ceiling of `gap / stp` (`0` when the
window is already closed).  Meaningful for `0 < stp`. -/
def nCalls (gap stp : Int) : Nat := (gap.toNat + stp.toNat - 1) / stp.toNat

attribute [ext] LoopState

theorem nCalls_pos {gap stp : Int} (hs : 0 < stp) (hg : 0 < gap) :
    1 ≤ nCalls gap stp := by
  have hb : 0 < stp.toNat := by omega
  unfold nCalls
  rw [Nat.one_le_div_iff hb]
  omega

theorem nCalls_nonpos {gap stp : Int} (hs : 0 < stp) (hg : gap ≤ 0) :
    nCalls gap stp = 0 := by
  have hb : 0 < stp.toNat := by omega
  unfold nCalls
  have hz : gap.toNat = 0 := by omega
  rw [hz]
  exact Nat.div_eq_of_lt (by omega)

theorem nCalls_succ {gap stp : Int} (hs : 0 < stp) (hg : 0 < gap) :
    nCalls gap stp = nCalls (gap - stp) stp + 1 := by
  have hb : 0 < stp.toNat := by omega
  have ha : 0 < gap.toNat := by omega
  unfold nCalls
  rcases le_or_lt gap stp with hle | hlt
  · have h1 : (gap - stp).toNat = 0 := by omega
    rw [h1]
    have h2 : (0 + stp.toNat - 1) / stp.toNat = 0 := Nat.div_eq_of_lt (by omega)
    have h3 : (gap.toNat + stp.toNat - 1) / stp.toNat = 1 :=
      Nat.div_eq_of_lt_le (by omega) (by omega)
    omega
  · have h1 : (gap - stp).toNat = gap.toNat - stp.toNat := by omega
    have hx : gap.toNat - stp.toNat + stp.toNat - 1 + stp.toNat
        = gap.toNat + stp.toNat - 1 := by omega
    rw [h1, ← hx, Nat.add_div_right _ hb]

theorem nCalls_mul_ge {gap stp : Int} (hs : 0 < stp) :
    gap ≤ (nCalls gap stp : Int) * stp := by
  rcases le_or_lt gap 0 with hg | hg
  · have h0 : (0 : Int) ≤ (nCalls gap stp : Int) * stp :=
      mul_nonneg (Int.natCast_nonneg _) (le_of_lt hs)
    linarith
  · have hb : 0 < stp.toNat := by omega
    have key : gap.toNat ≤ nCalls gap stp * stp.toNat := by
      unfold nCalls
      have h1 := Nat.div_add_mod (gap.toNat + stp.toNat - 1) stp.toNat
      have h2 : (gap.toNat + stp.toNat - 1) % stp.toNat < stp.toNat :=
        Nat.mod_lt _ hb
      generalize hq : (gap.toNat + stp.toNat - 1) / stp.toNat = q at h1 ⊢
      generalize hr : (gap.toNat + stp.toNat - 1) % stp.toNat = r at h1 h2
      rw [Nat.mul_comm]
      generalize hm : stp.toNat * q = m at h1 ⊢
      omega
    have hcast : ((gap.toNat : Int)) ≤ ((nCalls gap stp : Int)) * ((stp.toNat : Int)) := by
      exact_mod_cast key
    rw [Int.toNat_of_nonneg (le_of_lt hg), Int.toNat_of_nonneg (le_of_lt hs)] at hcast
    exact hcast

theorem activePhase_spec {stp : Int} (hs : 0 < stp) :
    ∀ (fuel : Nat) (s : LoopState), nCalls (s.tStop - s.now) stp ≤ fuel →
      activePhase stp fuel s
        = some { s with calls := s.calls + nCalls (s.tStop - s.now) stp
                      , now := s.now + (nCalls (s.tStop - s.now) stp : Int) * stp } := by
  intro fuel
  induction fuel with
  | zero =>
    intro s h
    have h0 : nCalls (s.tStop - s.now) stp = 0 := Nat.le_zero.mp h
    have hg : ¬ s.now < s.tStop := by
      intro hc
      have h1 := nCalls_pos hs (show (0 : Int) < s.tStop - s.now by omega)
      omega
    simp only [activePhase, if_neg hg, h0]
    refine congrArg some ?_
    ext <;> simp
  | succ f ih =>
    intro s h
    by_cases hlt : s.now < s.tStop
    · have hg : (0 : Int) < s.tStop - s.now := by omega
      have hsucc := nCalls_succ hs hg
      have harg : s.tStop - (s.now + stp) = s.tStop - s.now - stp := by ring
      have hle : nCalls ((activeIter stp s).tStop - (activeIter stp s).now) stp ≤ f := by
        simp only [activeIter, harg]
        omega
      have hstep := ih (activeIter stp s) hle
      simp only [activePhase, if_pos hlt]
      rw [hstep]
      refine congrArg some ?_
      ext
      · simp [activeIter]
      · simp [activeIter]
      · simp only [activeIter, harg]
        rw [hsucc]
        push_cast
        ring
      · simp only [activeIter, harg]
        omega
      · simp [activeIter]
    · have hg : s.tStop - s.now ≤ 0 := by omega
      have h0 : nCalls (s.tStop - s.now) stp = 0 := nCalls_nonpos hs hg
      simp only [activePhase, if_neg hlt, h0]
      refine congrArg some ?_
      ext <;> simp

theorem activePhase_fields {stp : Int} :
    ∀ (fuel : Nat) (s s2 : LoopState), activePhase stp fuel s = some s2 →
      s2.tStart = s.tStart ∧ s2.tStop = s.tStop ∧ s2.cycles = s.cycles := by
  intro fuel
  induction fuel with
  | zero =>
    intro s s2 h
    simp only [activePhase] at h
    by_cases hlt : s.now < s.tStop
    · rw [if_pos hlt] at h
      exact absurd h (by simp)
    · rw [if_neg hlt] at h
      injection h with h2
      subst h2
      exact ⟨rfl, rfl, rfl⟩
  | succ f ih =>
    intro s s2 h
    simp only [activePhase] at h
    by_cases hlt : s.now < s.tStop
    · rw [if_pos hlt] at h
      have h3 := ih (activeIter stp s) s2 h
      simpa [activeIter] using h3
    · rw [if_neg hlt] at h
      injection h with h2
      subst h2
      exact ⟨rfl, rfl, rfl⟩

theorem runCycle_fields {stp per : Int} {fuel : Nat} {s s2 : LoopState}
    (h : runCycle stp per fuel s = some s2) :
    s2.cycles = s.cycles + 1 ∧ s2.tStart = max s.now s.tStart + per
      ∧ s2.tStop = s.tStop + per := by
  unfold runCycle at h
  cases hx : activePhase stp fuel (waitPhase s) with
  | none => rw [hx] at h; simp at h
  | some a =>
    rw [hx] at h
    simp only [Option.map_some'] at h
    have hf := activePhase_fields fuel (waitPhase s) a hx
    simp only [waitPhase] at hf
    injection h with h2
    subst h2
    exact ⟨by simp [hf.2.2], by simp [hf.1], by simp [hf.2.1]⟩

theorem runCycles_cycles {stp per : Int} {fuel : Nat} :
    ∀ (n : Nat) (s s2 : LoopState), runCycles stp per fuel n s = some s2 →
      s2.cycles = s.cycles + n := by
  intro n
  induction n with
  | zero =>
    intro s s2 h
    simp only [runCycles] at h
    injection h with h2
    subst h2
    rfl
  | succ m ih =>
    intro s s2 h
    simp only [runCycles] at h
    cases hx : runCycle stp per fuel s with
    | none => rw [hx] at h; simp at h
    | some a =>
      rw [hx] at h
      simp only [Option.some_bind] at h
      have h1 := (runCycle_fields hx).1
      have h2 := ih a s2 h
      omega

theorem setCycleStartStop_period (p : TaskParams) (s1 s2 s3 : String)
    (off jh jm : Int) :
    (setCycleStartStop p s1 s2 s3 off jh jm).tCyclePeriod = 86400 := rfl

theorem setCycleStartStop_nbr (p : TaskParams) (s1 s2 s3 : String)
    (off jh jm : Int) :
    (setCycleStartStop p s1 s2 s3 off jh jm).nbrOfCycles
      = toUInt32Val (1 + cdiv ((setCycleStartStop p s1 s2 s3 off jh jm).tStop
          - (setCycleStartStop p s1 s2 s3 off jh jm).tStart) 86400) := rfl

theorem setCycleStartStop_matched (p : TaskParams) (s1 s2 s3 : String)
    (off jh jm y1 mo1 d1 h1 mi1 y2 mo2 d2 h2 mi2 hh mm : Int)
    (hs3 : scanIntervalHHMM s3 = ⟨2, some hh, some mm⟩)
    (hs1 : scanDateYMDHM s1 = ⟨5, some y1, some mo1, some d1, some h1, some mi1⟩)
    (hs2 : scanDateYMDHM s2 = ⟨5, some y2, some mo2, some d2, some h2, some mi2⟩) :
    (setCycleStartStop p s1 s2 s3 off jh jm).tInterval = 60 * (60 * hh + mm)
    ∧ (setCycleStartStop p s1 s2 s3 off jh jm).tStart
        = mktimeModel off ⟨y1 - 1900, mo1 - 1, d1, h1, mi1⟩
    ∧ (setCycleStartStop p s1 s2 s3 off jh jm).tStop
        = mktimeModel off ⟨y2 - 1900, mo2 - 1, d2, h2, mi2⟩ := by
  refine ⟨?_, ?_, ?_⟩ <;> simp [setCycleStartStop, hs1, hs2, hs3, applyDateScan]

/-- C4, counterexample: the claim says the freshly constructed scheduler's
record defaults `intervalMultiplier` to 1, but StartStopTimer.hpp line 30
initializes it (the fourth field) to 1000. -/
theorem c4_counterexample :
    defaultTaskParams.intervalMultiplier = 1000 ∧ (1000 : Nat) ≠ 1 := by decide

/-- C4 (amended): a freshly constructed scheduler's configuration record has
exactly the default values start = 0, stop = 0, interval = 1,
intervalMultiplier = 1000, cyclePeriod = 86400, cycleCount = 1, execution
handle empty and callback empty. -/
theorem c4_default_values :
    defaultTaskParams
      = { tStart := 0, tStop := 0, tInterval := 1, intervalMultiplier := 1000
        , tCyclePeriod := 86400, nbrOfCycles := 1, tskHandle := none
        , callback := none } := rfl

/-- C3 (confirmed): whenever the cycle execution loop runs to completion, it
has executed exactly `nbrOfCycles` windows, and it unconditionally deletes
its own execution unit, leaving the stored handle empty; the result carries
no success/failure payload beyond that (the C function returns `void`). -/
theorem c3_unconditional_termination (p : TaskParams) (now0 : Int) (fuel : Nat)
    (r : TaskResult) (h : taskFunction p now0 fuel = some r) :
    r.tskHandle = none ∧ r.state.cycles = p.nbrOfCycles := by
  unfold taskFunction at h
  cases hx : runCycles ((p.intervalMultiplier : Int) * p.tInterval) p.tCyclePeriod
      fuel p.nbrOfCycles (initState p now0) with
  | none => rw [hx] at h; simp at h
  | some s =>
    rw [hx] at h
    simp only [Option.map_some'] at h
    injection h with h2
    subst h2
    refine ⟨rfl, ?_⟩
    have hc := runCycles_cycles p.nbrOfCycles _ s hx
    simpa [initState] using hc

/-- Witness for C3 at a concrete configuration (one empty window). -/
theorem c3_unconditional_termination_witness :
    (⟨⟨5, 5, 0, 0, 1⟩, none⟩ : TaskResult).tskHandle = none
    ∧ (⟨⟨5, 5, 0, 0, 1⟩, none⟩ : TaskResult).state.cycles
        = ({ tStart := 0, tStop := 0, tInterval := 1, intervalMultiplier := 1
           , tCyclePeriod := 5, nbrOfCycles := 1, tskHandle := some ()
           , callback := some () } : TaskParams).nbrOfCycles :=
  c3_unconditional_termination
    { tStart := 0, tStop := 0, tInterval := 1, intervalMultiplier := 1
    , tCyclePeriod := 5, nbrOfCycles := 1, tskHandle := some ()
    , callback := some () } 0 1 ⟨⟨5, 5, 0, 0, 1⟩, none⟩ (by decide)

/-- C10 (confirmed): with `nbrOfCycles = 0` the loop body runs zero times:
the callback is never invoked, no waiting happens and `tStart`/`tStop` are
not mutated (the final state equals the entry state), and the unit deletes
itself immediately, leaving the stored handle empty. -/
theorem c10_zero_cycle_count (p : TaskParams) (now0 : Int) (fuel : Nat)
    (h : p.nbrOfCycles = 0) :
    taskFunction p now0 fuel
      = some { state := initState p now0, tskHandle := none } := by
  unfold taskFunction
  rw [h]
  rfl

/-- Witness for C10 at a concrete configuration. -/
theorem c10_zero_cycle_count_witness :
    taskFunction
        { tStart := 3, tStop := 9, tInterval := 2, intervalMultiplier := 1
        , tCyclePeriod := 7, nbrOfCycles := 0, tskHandle := some ()
        , callback := some () } 1 5
      = some { state := { tStart := 3, tStop := 9, now := 1, calls := 0, cycles := 0 }
             , tskHandle := none } :=
  (c10_zero_cycle_count
    { tStart := 3, tStop := 9, tInterval := 2, intervalMultiplier := 1
    , tCyclePeriod := 7, nbrOfCycles := 0, tskHandle := some ()
    , callback := some () } 1 5 rfl).trans (by decide)

/-- C2, counterexample: a `cycleCount = 3` run (step 4, cyclePeriod 5,
window `[0, 10)`) in which the window width measured at entry to the three
cycles' wait phases is 10, 10, 3: the active phase of cycle 1 overruns past
the advanced `tStart`, so cycle 2's re-anchoring shrinks the width; the
widths are not identical across the K cycles. -/
theorem c2_counterexample :
    entryStates 4 5 6 3 ⟨0, 10, 0, 0, 0⟩
      = some [⟨0, 10, 0, 0, 0⟩, ⟨5, 15, 12, 3, 1⟩, ⟨17, 20, 16, 4, 2⟩]
    ∧ (10 : Int) - 0 = 10 ∧ (15 : Int) - 5 = 10 ∧ (20 : Int) - 17 = 3
    ∧ ((3 : Int)) ≠ 10 := by decide

/-- C2 (amended): for one cycle of the loop, the configured start of the
next cycle is deterministically `start_actual + cyclePeriod`, where
`start_actual = max now tStart` is the wall-clock time at which the wait
phase exited (the claim's second conjunct, unconditionally true); the window
width at entry to the next cycle equals `tStop - start_actual`, so the width
is preserved exactly when the cycle's wait phase exited at the configured
start (`now ≤ tStart` at entry), and shrinks when the previous active phase
overran it. -/
theorem c2_window_advance {stp per : Int} {fuel : Nat} {s s2 : LoopState}
    (h : runCycle stp per fuel s = some s2) :
    s2.tStart = max s.now s.tStart + per
    ∧ s2.tStop - s2.tStart = s.tStop - max s.now s.tStart
    ∧ (s.now ≤ s.tStart → s2.tStop - s2.tStart = s.tStop - s.tStart) := by
  obtain ⟨h1, h2, h3⟩ := runCycle_fields h
  refine ⟨h2, ?_, ?_⟩
  · rw [h2, h3]
    ring
  · intro hle
    rw [h2, h3, max_eq_right hle]
    ring

/-- Witness for C2's amended statement at a concrete cycle. -/
theorem c2_window_advance_witness :
    (⟨5, 15, 12, 3, 1⟩ : LoopState).tStart = max 0 0 + 5
    ∧ (⟨5, 15, 12, 3, 1⟩ : LoopState).tStop - (⟨5, 15, 12, 3, 1⟩ : LoopState).tStart
        = (10 : Int) - max 0 0
    ∧ ((0 : Int) ≤ 0 →
        (⟨5, 15, 12, 3, 1⟩ : LoopState).tStop - (⟨5, 15, 12, 3, 1⟩ : LoopState).tStart
          = (10 : Int) - 0) :=
  @c2_window_advance 4 5 6 ⟨0, 10, 0, 0, 0⟩ ⟨5, 15, 12, 3, 1⟩ (by decide)

theorem activeIter_zero_iterate :
    ∀ (n : Nat) (s : LoopState),
      (activeIter 0)^[n] s = { s with calls := s.calls + n } := by
  intro n
  induction n with
  | zero =>
    intro s
    ext <;> simp
  | succ m ih =>
    intro s
    rw [Function.iterate_succ_apply, ih (activeIter 0 s)]
    ext <;> simp [activeIter] <;> omega

theorem activePhase_zero_none :
    ∀ (n : Nat) (s : LoopState), s.now < s.tStop → activePhase 0 n s = none := by
  intro n
  induction n with
  | zero =>
    intro s h
    simp [activePhase, if_pos h]
  | succ m ih =>
    intro s h
    simp only [activePhase, if_pos h]
    apply ih
    simpa [activeIter] using h

/-- C8 (confirmed): with `tInterval = 0` the active-phase sleep
`vTaskDelay(intervalMultiplier * tInterval)` has length
`intervalMultiplier * 0 = 0`, so each iteration invokes the callback and
advances the clock by nothing: after any `n` iterations the state is
unchanged except for `n` more callback invocations (no iteration skips the
callback), the window guard `now < tStop` still holds, and the active phase
keeps looping (it consumes any amount of fuel without exiting) until
`now ≥ tStop` — which, with a clock driven only by sleeps, never arrives. -/
theorem c8_zero_interval_tight_loop (p : TaskParams) (s : LoopState)
    (h0 : p.tInterval = 0) (hopen : s.now < s.tStop) (n : Nat) :
    (activeIter ((p.intervalMultiplier : Int) * p.tInterval))^[n] s
        = { s with calls := s.calls + n }
    ∧ ((activeIter ((p.intervalMultiplier : Int) * p.tInterval))^[n] s).now
        < ((activeIter ((p.intervalMultiplier : Int) * p.tInterval))^[n] s).tStop
    ∧ activePhase ((p.intervalMultiplier : Int) * p.tInterval) n s = none := by
  have hz : (p.intervalMultiplier : Int) * p.tInterval = 0 := by
    rw [h0, mul_zero]
  rw [hz]
  refine ⟨activeIter_zero_iterate n s, ?_, activePhase_zero_none n s hopen⟩
  rw [activeIter_zero_iterate n s]
  simpa using hopen

/-- Witness for C8 at a concrete open window and three iterations. -/
theorem c8_zero_interval_tight_loop_witness :
    (activeIter (((7 : Nat) : Int) * 0))^[3] (⟨0, 5, 0, 0, 0⟩ : LoopState)
        = ⟨0, 5, 0, 3, 0⟩
    ∧ activePhase (((7 : Nat) : Int) * 0) 3 (⟨0, 5, 0, 0, 0⟩ : LoopState) = none := by
  have h := c8_zero_interval_tight_loop ⟨0, 5, 0, 7, 86400, 1, none, none⟩
    ⟨0, 5, 0, 0, 0⟩ rfl (by decide) 3
  exact ⟨h.1.trans (by decide), h.2.2⟩

/-- C1, counterexample: configuration start 0, stop 10, interval 2,
intervalMultiplier 1, cycleCount 1, clock starting at 0.  The loop invokes
the callback 5 times (at times 0, 2, 4, 6, 8; at time 10 the guard
`now < stop` already fails), but the claim's formula
`floor((stop - start) / (intervalMultiplier * interval)) + 1` yields 6:
when the step divides the window width exactly, the formula overcounts. -/
theorem c1_counterexample :
    taskFunction
        { tStart := 0, tStop := 10, tInterval := 2, intervalMultiplier := 1
        , tCyclePeriod := 86400, nbrOfCycles := 1, tskHandle := some ()
        , callback := some () } 0 10
      = some { state := { tStart := 86400, tStop := 86410, now := 10
                        , calls := 5, cycles := 1 }
             , tskHandle := none }
    ∧ (5 : Nat) ≠ (10 - 0) / (1 * 2) + 1 := by decide

/-- C1 (amended): for a valid configuration with `cycleCount = 1`, a
positive sleep step and `start ≤ stop`, entered with the clock not past
`start`, the callback is invoked exactly `⌈(stop - start) /
(intervalMultiplier * interval)⌉` times (`nCalls`; this equals
`floor((stop - start)/step) + 1` exactly when the step does not divide
`stop - start`, and `floor + 1` otherwise overcounts by one), and the stored
execution handle becomes empty only after `now() ≥ stop` has been observed:
the final clock value at which the handle is cleared satisfies `stop ≤ now`. -/
theorem c1_single_cycle_count (p : TaskParams) (now0 : Int) (fuel : Nat)
    (hK : p.nbrOfCycles = 1)
    (hstep : 0 < (p.intervalMultiplier : Int) * p.tInterval)
    (hss : p.tStart ≤ p.tStop)
    (hnow : now0 ≤ p.tStart)
    (hfuel : nCalls (p.tStop - p.tStart) ((p.intervalMultiplier : Int) * p.tInterval) ≤ fuel) :
    taskFunction p now0 fuel
      = some { state :=
                 { tStart := p.tStart + p.tCyclePeriod
                 , tStop := p.tStop + p.tCyclePeriod
                 , now := p.tStart
                     + (nCalls (p.tStop - p.tStart)
                          ((p.intervalMultiplier : Int) * p.tInterval) : Int)
                         * ((p.intervalMultiplier : Int) * p.tInterval)
                 , calls := nCalls (p.tStop - p.tStart)
                     ((p.intervalMultiplier : Int) * p.tInterval)
                 , cycles := 1 }
             , tskHandle := none }
    ∧ p.tStop ≤ p.tStart
        + (nCalls (p.tStop - p.tStart)
             ((p.intervalMultiplier : Int) * p.tInterval) : Int)
            * ((p.intervalMultiplier : Int) * p.tInterval) := by
  constructor
  · unfold taskFunction
    rw [hK]
    have hwait : waitPhase (initState p now0)
        = { tStart := p.tStart, tStop := p.tStop, now := p.tStart
          , calls := 0, cycles := 0 } := by
      unfold waitPhase initState
      rw [max_eq_right hnow]
    have hact := activePhase_spec hstep fuel
      { tStart := p.tStart, tStop := p.tStop, now := p.tStart, calls := 0, cycles := 0 }
      (by simpa using hfuel)
    simp only [runCycles, runCycle, hwait, hact, Option.map_some', Option.some_bind]
    refine congrArg some ?_
    refine congrArg (fun st => TaskResult.mk st none) ?_
    ext <;> simp
  · have hge := @nCalls_mul_ge (p.tStop - p.tStart)
      ((p.intervalMultiplier : Int) * p.tInterval) hstep
    linarith

/-- Witness for C1's amended statement: start 0, stop 10, interval 3,
multiplier 1 gives exactly `⌈10/3⌉ = 4` invocations. -/
theorem c1_single_cycle_count_witness :
    taskFunction
        { tStart := 0, tStop := 10, tInterval := 3, intervalMultiplier := 1
        , tCyclePeriod := 86400, nbrOfCycles := 1, tskHandle := some ()
        , callback := some () } 0 10
      = some { state := { tStart := 86400, tStop := 86410, now := 12
                        , calls := 4, cycles := 1 }
             , tskHandle := none }
    ∧ (10 : Int) ≤ 12 := by
  have h := c1_single_cycle_count
    { tStart := 0, tStop := 10, tInterval := 3, intervalMultiplier := 1
    , tCyclePeriod := 86400, nbrOfCycles := 1, tskHandle := some ()
    , callback := some () } 0 10 rfl (by decide) (by decide) (by decide) (by decide)
  exact ⟨h.1.trans (by decide), by norm_num⟩

/-- C7 (confirmed): `setCycleStartStop("2023-06-13 22:40", "2023-06-14 06:15",
"00:05")` stores interval = 300, cyclePeriod = 86400 and cycleCount = 1, for
every timezone offset (both dates lie in the same daylight-saving regime, so
only the span 27300 s matters) and any junk in the uninitialized locals
(both interval conversions match). -/
theorem c7_round_trip (p : TaskParams) (off jh jm : Int) :
    (setCycleStartStop p "2023-06-13 22:40" "2023-06-14 06:15" "00:05" off jh jm).tInterval = 300
    ∧ (setCycleStartStop p "2023-06-13 22:40" "2023-06-14 06:15" "00:05" off jh jm).tCyclePeriod = 86400
    ∧ (setCycleStartStop p "2023-06-13 22:40" "2023-06-14 06:15" "00:05" off jh jm).nbrOfCycles = 1 := by
  have hs3 : scanIntervalHHMM "00:05" = ⟨2, some 0, some 5⟩ := by decide
  have hs1 : scanDateYMDHM "2023-06-13 22:40"
      = ⟨5, some 2023, some 6, some 13, some 22, some 40⟩ := by decide
  have hs2 : scanDateYMDHM "2023-06-14 06:15"
      = ⟨5, some 2023, some 6, some 14, some 6, some 15⟩ := by decide
  have hm := setCycleStartStop_matched p "2023-06-13 22:40" "2023-06-14 06:15"
    "00:05" off jh jm 2023 6 13 22 40 2023 6 14 6 15 0 5 hs3 hs1 hs2
  refine ⟨?_,
    setCycleStartStop_period p "2023-06-13 22:40" "2023-06-14 06:15" "00:05" off jh jm, ?_⟩
  · rw [hm.1]
    norm_num
  · have hnbr := setCycleStartStop_nbr p "2023-06-13 22:40" "2023-06-14 06:15"
      "00:05" off jh jm
    have hdiff : (setCycleStartStop p "2023-06-13 22:40" "2023-06-14 06:15" "00:05" off jh jm).tStop
        - (setCycleStartStop p "2023-06-13 22:40" "2023-06-14 06:15" "00:05" off jh jm).tStart
        = 27300 := by
      rw [hm.2.2, hm.2.1]
      simp only [mktimeModel]
      norm_num
      have e13 : daysFromCivil 2023 6 13 = 19521 := by decide
      have e14 : daysFromCivil 2023 6 14 = 19522 := by decide
      omega
    rw [hnbr, hdiff]
    decide

/-- C5, counterexample: for the successfully parsed pair start =
"2023-06-14 06:15", stop = "2023-06-13 22:40" (stop before start, span
-27300 s), the code's truncating division stores cycleCount = 1, while the
claim's formula `1 + floor((stop - start)/86400)` yields 0. -/
theorem c5_counterexample :
    (setCycleStartStop defaultTaskParams "2023-06-14 06:15" "2023-06-13 22:40" "00:05" 0 0 0).tStop
        - (setCycleStartStop defaultTaskParams "2023-06-14 06:15" "2023-06-13 22:40" "00:05" 0 0 0).tStart
      = -27300
    ∧ (setCycleStartStop defaultTaskParams "2023-06-14 06:15" "2023-06-13 22:40" "00:05" 0 0 0).nbrOfCycles = 1
    ∧ 1 + Int.fdiv (-27300) 86400 = 0
    ∧ (1 : Nat) ≠ 0 := by decide

theorem cdiv_cast_day (n : Nat) : cdiv (n : Int) 86400 = ((n / 86400 : Nat) : Int) := rfl

theorem fdiv_cast_day (n : Nat) :
    Int.fdiv (n : Int) 86400 = ((n / 86400 : Nat) : Int) := by
  show Int.fdiv (Int.ofNat n) (Int.ofNat 86400) = Int.ofNat (n / 86400)
  cases n with
  | zero => rfl
  | succ m => rfl

theorem cdiv_neg_cast_day (n : Nat) :
    cdiv (-(n : Int)) 86400 = -((n / 86400 : Nat) : Int) := by
  unfold cdiv
  rw [Int.neg_tdiv]
  rw [show Int.tdiv ((n : Nat) : Int) 86400 = ((n / 86400 : Nat) : Int) from rfl]

/-- C5 (amended): `setCycleStartStop` sets cyclePeriod = 86400
unconditionally, and whenever the parsed timestamps satisfy `start ≤ stop`
(where C truncating division agrees with floor division; the in-range bound
keeps the `uint32_t` store from wrapping), the stored cycleCount equals
`1 + floor((stop - start) / 86400)`. -/
theorem c5_cycle_count (p : TaskParams) (s1 s2 s3 : String) (off jh jm : Int)
    (h : 0 ≤ (setCycleStartStop p s1 s2 s3 off jh jm).tStop
        - (setCycleStartStop p s1 s2 s3 off jh jm).tStart)
    (hb : (setCycleStartStop p s1 s2 s3 off jh jm).tStop
        - (setCycleStartStop p s1 s2 s3 off jh jm).tStart < 86400 * 4294967295) :
    (setCycleStartStop p s1 s2 s3 off jh jm).tCyclePeriod = 86400
    ∧ ((setCycleStartStop p s1 s2 s3 off jh jm).nbrOfCycles : Int)
        = 1 + Int.fdiv ((setCycleStartStop p s1 s2 s3 off jh jm).tStop
            - (setCycleStartStop p s1 s2 s3 off jh jm).tStart) 86400 := by
  refine ⟨setCycleStartStop_period p s1 s2 s3 off jh jm, ?_⟩
  have hnbr := setCycleStartStop_nbr p s1 s2 s3 off jh jm
  rw [hnbr]
  generalize hgen : (setCycleStartStop p s1 s2 s3 off jh jm).tStop
      - (setCycleStartStop p s1 s2 s3 off jh jm).tStart = d at h hb ⊢
  obtain ⟨n, hd⟩ : ∃ n : Nat, d = (n : Int) := ⟨d.toNat, by omega⟩
  subst hd
  rw [cdiv_cast_day, fdiv_cast_day]
  unfold toUInt32Val
  have hk : n / 86400 ≤ 4294967294 := by omega
  omega

/-- Witness for C5's amended statement at the documented example pair. -/
theorem c5_cycle_count_witness :
    ((setCycleStartStop defaultTaskParams "2023-06-13 22:40" "2023-06-14 06:15" "00:05" 0 0 0).nbrOfCycles : Int)
      = 1 + Int.fdiv ((setCycleStartStop defaultTaskParams "2023-06-13 22:40" "2023-06-14 06:15" "00:05" 0 0 0).tStop
          - (setCycleStartStop defaultTaskParams "2023-06-13 22:40" "2023-06-14 06:15" "00:05" 0 0 0).tStart) 86400 :=
  (c5_cycle_count defaultTaskParams "2023-06-13 22:40" "2023-06-14 06:15" "00:05"
    0 0 0 (by decide) (by decide)).2

/-- C6, evidence of the code bug: on the malformed interval text "5" (no
colon) the scan matches only 1 of 2 conversions, yet `setCycleStartStop`
reports nothing (the C function returns void and ignores the `sscanf`
result) and stores `tInterval = 60*(60*5 + junk)` computed from the
partially parsed hour and the uninitialized local `tskMM` — evaluated here
at two different junk values to exhibit the dependence on garbage. -/
theorem c6_silent_partial_parse :
    (scanIntervalHHMM "5").matched = 1
    ∧ (setCycleStartStop defaultTaskParams "2023-06-13 22:40" "2023-06-14 06:15" "5" 0 0 7).tInterval
        = 60 * (60 * 5 + 7)
    ∧ (setCycleStartStop defaultTaskParams "2023-06-13 22:40" "2023-06-14 06:15" "5" 0 0 41).tInterval
        = 60 * (60 * 5 + 41) := by decide

/-- C9, counterexample: for the parsed pair with `start - stop` exactly
86400 (one day), the code stores `1 + trunc(-86400/86400) = 0`: the
nonpositive intermediate is 0, which does not wrap to a very large
cycleCount — it is the smallest possible value. -/
theorem c9_counterexample :
    (setCycleStartStop defaultTaskParams "2023-06-14 22:40" "2023-06-13 22:40" "00:05" 0 0 0).tStart
        - (setCycleStartStop defaultTaskParams "2023-06-14 22:40" "2023-06-13 22:40" "00:05" 0 0 0).tStop
      = 86400
    ∧ (setCycleStartStop defaultTaskParams "2023-06-14 22:40" "2023-06-13 22:40" "00:05" 0 0 0).nbrOfCycles = 0 := by decide

/-- C9 (amended): for parsed timestamps with stop < start (writing
`D = start - stop > 0`, bounded so the day quotient fits in 31 bits):
when `D < 86400` the stored cycleCount is exactly 1; when
`86400 ≤ D < 172800` the intermediate `1 + trunc((stop-start)/86400)` is 0
and the stored cycleCount is 0 (no wrap); only when `D ≥ 172800` is the
intermediate negative and wraps modulo 2^32 to a very large value
(at least 2^31). -/
theorem c9_negative_span (p : TaskParams) (s1 s2 s3 : String) (off jh jm : Int)
    (hD : 0 < (setCycleStartStop p s1 s2 s3 off jh jm).tStart
        - (setCycleStartStop p s1 s2 s3 off jh jm).tStop)
    (hB : (setCycleStartStop p s1 s2 s3 off jh jm).tStart
        - (setCycleStartStop p s1 s2 s3 off jh jm).tStop < 86400 * 2147483648) :
    ((setCycleStartStop p s1 s2 s3 off jh jm).tStart
        - (setCycleStartStop p s1 s2 s3 off jh jm).tStop < 86400
      → (setCycleStartStop p s1 s2 s3 off jh jm).nbrOfCycles = 1)
    ∧ (86400 ≤ (setCycleStartStop p s1 s2 s3 off jh jm).tStart
        - (setCycleStartStop p s1 s2 s3 off jh jm).tStop
      → (setCycleStartStop p s1 s2 s3 off jh jm).tStart
        - (setCycleStartStop p s1 s2 s3 off jh jm).tStop < 172800
      → (setCycleStartStop p s1 s2 s3 off jh jm).nbrOfCycles = 0)
    ∧ (172800 ≤ (setCycleStartStop p s1 s2 s3 off jh jm).tStart
        - (setCycleStartStop p s1 s2 s3 off jh jm).tStop
      → 2147483648 ≤ (setCycleStartStop p s1 s2 s3 off jh jm).nbrOfCycles) := by
  have hnbr := setCycleStartStop_nbr p s1 s2 s3 off jh jm
  obtain ⟨n, hn⟩ : ∃ n : Nat,
      (setCycleStartStop p s1 s2 s3 off jh jm).tStart
        - (setCycleStartStop p s1 s2 s3 off jh jm).tStop = (n : Int) :=
    ⟨((setCycleStartStop p s1 s2 s3 off jh jm).tStart
        - (setCycleStartStop p s1 s2 s3 off jh jm).tStop).toNat, by omega⟩
  have hneg : (setCycleStartStop p s1 s2 s3 off jh jm).tStop
      - (setCycleStartStop p s1 s2 s3 off jh jm).tStart = -((n : Nat) : Int) := by omega
  rw [hneg, cdiv_neg_cast_day] at hnbr
  unfold toUInt32Val at hnbr
  refine ⟨?_, ?_, ?_⟩
  · intro hlt
    omega
  · intro hge hlt
    omega
  · intro hge
    omega

/-- Witness for C9's amended statement: a reversed pair with span 27300 s
(under one day) stores cycleCount 1. -/
theorem c9_negative_span_witness :
    (setCycleStartStop defaultTaskParams "2023-06-14 06:15" "2023-06-13 22:40" "00:05" 0 0 0).nbrOfCycles = 1 := by
  have h := c9_negative_span defaultTaskParams "2023-06-14 06:15" "2023-06-13 22:40"
    "00:05" 0 0 0 (by decide) (by decide)
  exact h.1 (by decide)
